import Mathlib

/-
Shallow embedding of `src/deckset_inline/inliner.py` (the deckset-inline
directive engine) and proofs about it.

Modelling conventions:
  * Python strings are Lean `String`s; a "line" may carry its trailing
    newline character, exactly as Python file iteration produces it.
  * The file system is a map `FileSys` from path strings to an entry that
    is absent, present-but-unreadable, or readable with a list of lines.
    `Path(p)` / `str(Path(p))` are modelled as the identity on the path
    string (inputs in this development use plain relative names, which
    `pathlib` leaves unchanged).
  * Exceptions are values: `PyErr.inlineError msg line lineno` models the
    repository's `InlineError(message, line, lineno)`; `PyErr.otherErr msg`
    models any other Python exception (TypeError, AssertionError,
    ValueError, ...), whose exact message text is abbreviated.
  * Generators are modelled as the full list of yielded lines, or the
    raised error; claims in this development only inspect the resulting
    sequence of a successful run or the raised error, never the partial
    prefix yielded before an error.
-/

deriving instance DecidableEq for Except

/-- Whether `p` is a prefix of `s`, at the character level: the behaviour of
Python's `str.startswith` and of `re` matching a literal prefix. -/
def strStartsWith (p s : String) : Bool :=
  p.toList.isPrefixOf s.toList

/-- Python `\s` on ASCII input: space, tab, newline, carriage return,
form feed and vertical tab. -/
def isPySpace (c : Char) : Bool :=
  c = ' ' || c = '\t' || c = '\n' || c = '\r' || c = '\x0b' || c = '\x0c'

/-- Strip Python whitespace from both ends of a character list. -/
def pyStripChars (cs : List Char) : List Char :=
  ((cs.dropWhile isPySpace).reverse.dropWhile isPySpace).reverse

/-- ASCII lower-casing, as `str.lower` behaves on the ASCII tag and
attribute names that occur here. -/
def pyLower (s : String) : String :=
  String.mk (s.toList.map Char.toLower)

/-- Model of Python `int(s)` on attribute strings: optional surrounding
whitespace, an optional sign, then a non-empty run of digits.  (Underscore
digit grouping is not modelled; no input in this development uses it.) -/
def pyInt (s : String) : Option Int :=
  let t := pyStripChars s.toList
  let digits : List Char → Option Nat := fun ds =>
    if ds ≠ [] ∧ ds.all Char.isDigit then
      some (ds.foldl (fun acc c => 10 * acc + (c.toNat - 48)) 0)
    else none
  match t with
  | '-' :: ds => (digits ds).map (fun n => -(n : Int))
  | '+' :: ds => (digits ds).map (fun n => (n : Int))
  | ds => (digits ds).map (fun n => (n : Int))

/-- The characters of a list up to (excluding) the first occurrence of
`--​>`, or `none` when that close marker never occurs.  Models the
`(.*?)\s*-->` part of `COMMENT_RE`. -/
def innerBeforeClose : List Char → Option (List Char)
  | [] => none
  | '-' :: '-' :: '>' :: _ => some []
  | c :: rest => (innerBeforeClose rest).map (fun l => c :: l)

/--
Model of `extract_line_comment`, i.e. of matching
`COMMENT_RE = ^\s*<!--\s*(.*?)\s*-->` and returning group 1.

The regex anchors at the start of the line, skips leading whitespace,
requires a literal `<!--`, and captures the (whitespace-trimmed) text up
to the first `--​>`.  Since `.` does not match a newline, a captured group
with an interior newline (impossible for a single input line, which holds
a newline only at its very end) makes the regex fail; the model returns
`none` in that case.
-/
def extract_line_comment (line : String) : Option String :=
  let cs := line.toList.dropWhile isPySpace
  if cs.take 4 = '<' :: '!' :: '-' :: '-' :: [] then
    match innerBeforeClose (cs.drop 4) with
    | none => none
    | some inner =>
      let t := pyStripChars inner
      if t.any (fun c => c = '\n') then none else some (String.mk t)
  else none

/-- Characters allowed inside a tag name after its leading letter
(`html.parser`'s `tagfind_tolerant`): everything up to whitespace, `/`
or the closing angle bracket. -/
def tagNameChar (c : Char) : Bool :=
  ¬ isPySpace c ∧ c ≠ '/' ∧ c ≠ '>'

/-- Characters allowed in an attribute name
(`html.parser`'s `attrfind_tolerant`): everything up to whitespace,
`/`, `=`, or the closing angle bracket. -/
def attrNameChar (c : Char) : Bool :=
  ¬ isPySpace c ∧ c ≠ '/' ∧ c ≠ '=' ∧ c ≠ '>'

/-- The single-quote character, used for single-quoted attribute values. -/
def squote : Char := Char.ofNat 39

/-- Split a character list at the first occurrence of `q`: the characters
before it and the characters after it, or `none` when `q` is absent. -/
def splitAtChar (q : Char) : List Char → Option (List Char × List Char)
  | [] => none
  | c :: rest =>
    if c = q then some ([], rest)
    else (splitAtChar q rest).map (fun p => (c :: p.1, p.2))

/-- Characters of an unquoted attribute value: up to whitespace or the
closing angle bracket. -/
def unquotedValChar (c : Char) : Bool :=
  ¬ isPySpace c ∧ c ≠ '>'

/--
Parse the optional `= value` part following an attribute name, as
`html.parser`'s `attrfind_tolerant` does: optional whitespace, one or
more `=`, optional whitespace, then a single-quoted, double-quoted or
unquoted value.  Returns the value (`none` for a value-less attribute)
and the remaining characters; `none` as the overall result models an
unterminated quoted value (the tag then never completes).
-/
def parseAttrValue (cs : List Char) : Option (Option String × List Char) :=
  let s1 := cs.dropWhile isPySpace
  match s1 with
  | '=' :: r1 =>
    let r2 := (r1.dropWhile (fun c => c = '=')).dropWhile isPySpace
    match r2 with
    | '"' :: r3 =>
      (splitAtChar '"' r3).map (fun p => (some (String.mk p.1), p.2))
    | c :: r3 =>
      if c = squote then
        (splitAtChar squote r3).map (fun p => (some (String.mk p.1), p.2))
      else
        some (some (String.mk (r2.takeWhile unquotedValChar)),
              r2.dropWhile unquotedValChar)
    | [] => some (some "", [])
  | _ => some (none, s1)

/--
Scan the attribute region of a start tag, up to its closing angle
bracket, accumulating `(name, optional value)` pairs the way
`html.parser` feeds them to `handle_starttag` (names lower-cased,
stray `/` and `=` characters between attributes skipped).  Returns the
attributes and the characters after the tag, or `none` when the tag is
never closed (the parser then just buffers the fragment and no handler
fires).

The recursion is driven by a fuel counter; every step consumes at least
one input character, so `cs.length + 1` steps always suffice.
-/
def scanAttrsGo : Nat → List Char → List (String × Option String) →
    Option (List (String × Option String) × List Char)
  | 0, _, _ => none
  | _ + 1, [], _ => none
  | _ + 1, '>' :: rest, acc => some (acc.reverse, rest)
  | _ + 1, '/' :: '>' :: rest, acc => some (acc.reverse, rest)
  | fuel + 1, c :: rest, acc =>
    if isPySpace c ∨ c = '/' ∨ c = '=' then scanAttrsGo fuel rest acc
    else
      let name := (c :: rest).takeWhile attrNameChar
      let afterName := (c :: rest).dropWhile attrNameChar
      match parseAttrValue afterName with
      | none => none
      | some (v, rest2) =>
        scanAttrsGo fuel rest2 ((pyLower (String.mk name), v) :: acc)

/-- See `scanAttrsGo`. -/
def scanAttrs (cs : List Char) : Option (List (String × Option String) × List Char) :=
  scanAttrsGo (cs.length + 1) cs []

/--
Find the first complete start tag in the given characters, as
`html.parser` would while being fed the whole string at once: a `<`
followed by a letter opens a start tag; the tag fires only if its
closing `>` is present (otherwise the fragment is buffered and nothing
more fires).  End tags, declarations and bare data are skipped —
`DirectiveParser` installs no handler for them.
Returns the (lower-cased) tag name, its attributes and the remaining
characters.
-/
def findTag : List Char → Option (String × List (String × Option String) × List Char)
  | [] => none
  | '<' :: rest =>
    match rest with
    | [] => none
    | c :: _ =>
      if c.isAlpha then
        match scanAttrs (rest.dropWhile tagNameChar) with
        | none => none
        | some (attrs, rest2) =>
          some (pyLower (String.mk (rest.takeWhile tagNameChar)), attrs, rest2)
      else findTag rest
  | _ :: rest => findTag rest

/-- Outcome of `DirectiveParser().feed(text)` followed by reading back
`parser.tag` / `parser.attrs`. -/
inductive FeedOutcome
  /-- No complete start tag fired; `parser.attrs` is still `None`. -/
  | incomplete : FeedOutcome
  /-- Exactly one start tag fired. -/
  | one (tag : String) (attrs : List (String × Option String)) : FeedOutcome
  /-- A second start tag fired and `assert self.tag is None` failed. -/
  | assertFail : FeedOutcome
deriving DecidableEq, Repr

/-- Model of feeding the comment text to `DirectiveParser`. -/
def feedModel (s : String) : FeedOutcome :=
  match findTag s.toList with
  | none => .incomplete
  | some (tag, attrs, rest) =>
    match findTag rest with
    | none => .one tag attrs
    | some _ => .assertFail

/-- Model of `dict(parser.attrs).get(key)` at the level of presence:
`none` when the key is absent, `some v` (with `v` the possibly-`None`
attribute value) when present.  Later duplicates overwrite earlier ones,
as in `dict` construction. -/
def attrLookup (attrs : List (String × Option String)) (key : String) :
    Option (Option String) :=
  (attrs.reverse.find? (fun a => a.1 = key)).map (fun a => a.2)

/-- Model of `TagType` from the source: a directive is opening or closing. -/
inductive TagType
  | OPENING : TagType
  | CLOSING : TagType
deriving DecidableEq, Repr

/-- A file-system entry: the path exists and is readable with the given
lines, or exists but cannot be opened for reading. -/
inductive FileEntry
  | readable (lines : List String) : FileEntry
  | unreadable : FileEntry
deriving DecidableEq, Repr

/-- The file system visible to the engine. -/
def FileSys : Type := String → Option FileEntry

/-- The raised-exception model: `inlineError` is the repository's
`InlineError(message, line, lineno)`; `otherErr` is any other Python
exception (its message abbreviated). -/
inductive PyErr
  | inlineError (msg : String) (line : String) (lineno : Nat) : PyErr
  | otherErr (msg : String) : PyErr
deriving DecidableEq, Repr

/-- A `CoreErr` is a `PyErr` before the offending line text and line
number are attached: `parse_directive` receives those two and stamps
them onto the error. -/
inductive CoreErr
  | inlineMsg (msg : String) : CoreErr
  | otherMsg (msg : String) : CoreErr
deriving DecidableEq, Repr

/-- The validated fields of an `InlineDirective`, minus the `line` /
`lineno` bookkeeping fields (which `parse_directive` stamps on).  The
`contents` generator and all pairing logic depend only on these. -/
structure CoreDir where
  type : TagType
  source : Option String
  verbatim : Bool
  lang : Option String
  start : Option Int
  stop : Option Int
deriving DecidableEq, Repr

/-- Model of `InlineDirective` from the source, after `__post_init__` has run:
`start`/`stop` already coerced to integers, `source` validated.  The
field `stop` models the Python field `end` (a Lean keyword). -/
structure InlineDirective where
  type : TagType
  lineno : Nat
  line : String
  source : Option String
  verbatim : Bool
  lang : Option String
  start : Option Int
  stop : Option Int
deriving DecidableEq, Repr

/-- Attach the raw line and line number to the validated core fields,
producing the full `InlineDirective`. -/
def stampDir (line : String) (lineno : Nat) (c : CoreDir) : InlineDirective :=
  ⟨c.type, lineno, line, c.source, c.verbatim, c.lang, c.start, c.stop⟩

/--
Model of `InlineDirective.validate_source`: the `src` attribute must be
present (a missing attribute value arrives as `none`), the path must
exist, and the file must be openable for reading.  The Python code's
`isinstance(self.source, str)` check always passes here, since attribute
values are strings; the message of the open-failure `OSError` is
abbreviated.
-/
def validate_source (source : Option String) (fs : FileSys) : Except CoreErr String :=
  match source with
  | none => .error (.inlineMsg "Source attribute must be present in directive")
  | some p =>
    match fs p with
    | none => .error (.inlineMsg ("File " ++ p ++ " not found"))
    | some .unreadable => .error (.inlineMsg ("Permission denied: " ++ p))
    | some (.readable _) => .ok p

/-- Model of the `int(...)` coercion of the `start` / `end` attribute in
`InlineDirective.__post_init__`, with its `ValueError` turned into the
`Invalid value ... for ... attribute` directive error. -/
def coerceBound (v : Option String) (attrName : String) : Except CoreErr (Option Int) :=
  match v with
  | none => .ok none
  | some s =>
    match pyInt s with
    | some k => .ok (some k)
    | none => .error (.inlineMsg ("Invalid value " ++ s ++ " for " ++ attrName ++ " attribute"))

/--
Model of constructing an `InlineDirective` (dataclass construction plus
`__post_init__`), at the level of the core fields: a CLOSING directive
skips validation entirely; an OPENING directive validates its source and
coerces `start` / `end`, in that order.
-/
def mkCore (type : TagType) (source : Option String) (verbatim : Bool)
    (lang : Option String) (startS stopS : Option String) (fs : FileSys) :
    Except CoreErr CoreDir :=
  match type with
  | .CLOSING => .ok ⟨.CLOSING, source, verbatim, lang, none, none⟩
  | .OPENING =>
    match validate_source source fs with
    | .error e => .error e
    | .ok p =>
      match coerceBound startS "start" with
      | .error e => .error e
      | .ok st =>
        match coerceBound stopS "end" with
        | .error e => .error e
        | .ok en => .ok ⟨.OPENING, some p, verbatim, lang, st, en⟩

/-- The early opening-directive check of `parse_directive`:
`re.search(r"^<(inline|python) ", directive)`.  Note the pattern ends in
a literal space character. -/
def codeLooksOpening (t : String) : Bool :=
  strStartsWith "<inline " t || strStartsWith "<python " t

/-- Abbreviated message of the `TypeError` raised by `dict(None)` when no
complete tag fired. -/
def dictNoneMsg : String := "TypeError: NoneType object is not iterable"

/-- Abbreviated message of the failed `assert self.tag is None` when a
second start tag fired. -/
def assertMsg : String := "AssertionError"

/-- Abbreviated message of the `UnboundLocalError` that would occur if
the parsed tag were neither `python` nor `inline` (unreachable: the
opening-check regex pins the tag name). -/
def unboundMsg : String := "UnboundLocalError: verbatim"

/--
Model of `parse_directive(line, lineno)` up to stamping the line and line
number on: extract the comment text; if it looks like an opening
directive, feed it to `DirectiveParser`, read the attributes back
(`dict(parser.attrs)` raises a `TypeError` when no tag fired; a second
tag fails the parser's assertion), require `src`, derive
`verbatim`/`lang` from the tag name, and construct the validated
directive.  If the text is exactly `</inline>` or `</python>`, construct
a CLOSING directive.  Otherwise the line holds no directive.
-/
def parse_core (line : String) (fs : FileSys) : Except CoreErr (Option CoreDir) :=
  match extract_line_comment line with
  | none => .ok none
  | some directive =>
    if codeLooksOpening directive then
      match feedModel directive with
      | .incomplete => .error (.otherMsg dictNoneMsg)
      | .assertFail => .error (.otherMsg assertMsg)
      | .one tag attrs =>
        if (attrLookup attrs "src").isNone then
          .error (.inlineMsg ("Attribute src not set for " ++ tag ++ " directive"))
        else
          let src : Option String := (attrLookup attrs "src").join
          let startS : Option String := (attrLookup attrs "start").join
          let stopS : Option String := (attrLookup attrs "end").join
          if tag = "python" then
            (mkCore .OPENING src true (some "python") startS stopS fs).map some
          else if tag = "inline" then
            let verbatim := (attrLookup attrs "verbatim").isSome
              || (attrLookup attrs "lang").isSome
            let lang := (attrLookup attrs "lang").join
            (mkCore .OPENING src verbatim lang startS stopS fs).map some
          else
            .error (.otherMsg unboundMsg)
    else if directive = "</inline>" ∨ directive = "</python>" then
      (mkCore .CLOSING none true none none none fs).map some
    else
      .ok none

/-- Model of `parse_directive(line, lineno)` from the source: `parse_core` with
the raw line and 1-based line number stamped onto the resulting
directive or error. -/
def parse_directive (line : String) (lineno : Nat) (fs : FileSys) :
    Except PyErr (Option InlineDirective) :=
  match parse_core line fs with
  | .error (.inlineMsg m) => .error (.inlineError m line lineno)
  | .error (.otherMsg m) => .error (.otherErr m)
  | .ok none => .ok none
  | .ok (some c) => .ok (some (stampDir line lineno c))

/-- Abbreviated message of the `ValueError` that `islice` raises on a
negative index. -/
def isliceMsg : String := "ValueError: Indices for islice() must be None or an integer"

/-- The fence-opening line emitted for a verbatim directive, or nothing. -/
def fencePre (d : InlineDirective) : List String :=
  if d.verbatim then ["```" ++ d.lang.getD "" ++ "\n"] else []

/-- The fence-closing line emitted for a verbatim directive, or nothing. -/
def fencePost (d : InlineDirective) : List String :=
  if d.verbatim then ["```\n"] else []

/--
Model of `InlineDirective.contents()`: the lines the directive block is
filled with.  `start = self.start - 1` (or 0), `end = self.end` (or
`None`); the body is `islice(fin, start, end)` over the source file's
lines, wrapped in fence lines when verbatim.  `islice` rejects a
negative index with a `ValueError`; with `stop` below `start` it simply
yields nothing.  The whole yielded sequence (or the raised error) is
returned; consumption order is not modelled.
-/
def contents (d : InlineDirective) (fs : FileSys) : Except PyErr (List String) :=
  let start : Int := match d.start with | some s => s - 1 | none => 0
  match d.source with
  | none => .error (.otherErr "AttributeError: NoneType has no attribute open")
  | some p =>
    match fs p with
    | some (.readable lines) =>
      if start < 0 then .error (.otherErr isliceMsg)
      else
        match d.stop with
        | some e =>
          if e < 0 then .error (.otherErr isliceMsg)
          else .ok (fencePre d ++ ((lines.take e.toNat).drop start.toNat) ++ fencePost d)
        | none => .ok (fencePre d ++ lines.drop start.toNat ++ fencePost d)
    | _ => .error (.otherErr ("OSError: cannot open " ++ p))

/--
Model of `result_generator`'s loop, with the state made explicit: the
remaining input lines, the 1-based number of the next line, and the
currently open directive (`None` outside a directive).  Produces the
full yielded sequence or the raised error.

Faithful quirks of the loop body: a line is passed through whenever no
directive is open *before* the line is parsed — so a CLOSING line seen
while idle is yielded both by that pass-through and by the closing
branch; lines between an opening directive and its closing one are never
yielded.
-/
def rgAux (fs : FileSys) (clean : Bool) :
    List String → Nat → Option InlineDirective → Except PyErr (List String)
  | [], _, none => .ok []
  | [], _, some d =>
    .error (.inlineError "Directive not closed at end of file" d.line d.lineno)
  | line :: rest, n, cur =>
    let pass : List String := match cur with | none => [line] | some _ => []
    match parse_directive line n fs with
    | .error e => .error e
    | .ok none => (rgAux fs clean rest (n + 1) cur).map (fun tl => pass ++ tl)
    | .ok (some d) =>
      match d.type with
      | .OPENING =>
        match cur with
        | some c =>
          .error (.inlineError
            ("New directive found while previous is still open at line " ++ toString c.lineno)
            line n)
        | none =>
          if clean then
            (rgAux fs clean rest (n + 1) (some d)).map (fun tl => pass ++ tl)
          else
            match contents d fs with
            | .error e => .error e
            | .ok body =>
              (rgAux fs clean rest (n + 1) (some d)).map (fun tl => pass ++ body ++ tl)
      | .CLOSING =>
        (rgAux fs clean rest (n + 1) none).map (fun tl => pass ++ line :: tl)

/-- Model of `result_generator(input_lines, clean)` from the source: run the scan
from line 1 with no directive open. -/
def result_generator (input_lines : List String) (clean : Bool) (fs : FileSys) :
    Except PyErr (List String) :=
  rgAux fs clean input_lines 1 none

/-- Model of `check(input_lines, clean)` from the source: consume the whole
generator, keeping only whether an error is raised. -/
def check (input_lines : List String) (clean : Bool) (fs : FileSys) :
    Except PyErr Unit :=
  (result_generator input_lines clean fs).map (fun _ => ())

/--
The relation `PairRun strict fs input cleanOut transOut` classifies the inputs on
which a scan from the idle state succeeds without ever meeting a CLOSING
directive while idle, together with the outputs of the clean pass and of
the transforming pass.  The input is a sequence of plain non-directive
lines and of complete directive blocks (opening line, stale body lines,
closing line).  With `strict = true` the freshly materialized body lines
are additionally required to parse as non-directives, which is what a
second transforming pass sees.
-/
inductive PairRun (strict : Bool) (fs : FileSys) :
    List String → List String → List String → Prop
  | nil : PairRun strict fs [] [] []
  | plain {l : String} {I C T : List String} :
      parse_core l fs = .ok none →
      PairRun strict fs I C T →
      PairRun strict fs (l :: I) (l :: C) (l :: T)
  | block {l cl : String} {c cc : CoreDir} {body mid I C T : List String} :
      parse_core l fs = .ok (some c) →
      c.type = .OPENING →
      contents (stampDir l 1 c) fs = .ok body →
      (strict = true → ∀ b ∈ body, parse_core b fs = .ok none) →
      (∀ m ∈ mid, parse_core m fs = .ok none) →
      parse_core cl fs = .ok (some cc) →
      cc.type = .CLOSING →
      PairRun strict fs I C T →
      PairRun strict fs (l :: (mid ++ cl :: I)) (l :: cl :: C) (l :: (body ++ cl :: T))

/-- The spec's wording of the opening-directive trigger, for comparison
with the code's `codeLooksOpening`: the spec states the pattern
`^<(inline|python)\s`, i.e. the tag name followed by ANY whitespace
character.  (The code's regex instead ends in a literal space.) -/
def specLooksOpening (t : String) : Bool :=
  [' ', '\t', '\n', '\r', Char.ofNat 11, Char.ofNat 12].any (fun w =>
    strStartsWith (String.mk ("<inline".toList ++ [w])) t ||
    strStartsWith (String.mk ("<python".toList ++ [w])) t)

/-- An empty file system: no path exists. -/
def fsNone : FileSys := fun _ => none

/-- A file system with one two-line readable file `f`. -/
def fsDemo : FileSys :=
  fun p => if p = "f" then some (.readable ["a\n", "b\n"]) else none

/-- A file system with one ten-line readable file `g`. -/
def fsTen : FileSys :=
  fun p =>
    if p = "g" then
      some (.readable
        ["1\n", "2\n", "3\n", "4\n", "5\n", "6\n", "7\n", "8\n", "9\n", "10\n"])
    else none

/-- A closing-directive line, used by several concrete scenarios. -/
def strayLine : String := "<!-- </inline> -->\n"

/-- An opening-directive line referencing `f`, used by several concrete
scenarios. -/
def openLineF : String := "<!-- <inline src=\"f\"> -->\n"

/-- The validated core directive that `openLineF` parses to. -/
def openCoreF : CoreDir := ⟨.OPENING, some "f", false, none, none, none⟩

/-- The validated core directive that any closing line parses to. -/
def closeCore : CoreDir := ⟨.CLOSING, none, true, none, none, none⟩

/-! ### Basic lemmas about stamping and parsing -/

theorem stampDir_type (line : String) (n : Nat) (c : CoreDir) :
    (stampDir line n c).type = c.type := rfl

theorem stampDir_lineno (line : String) (n : Nat) (c : CoreDir) :
    (stampDir line n c).lineno = n := rfl

theorem stampDir_line (line : String) (n : Nat) (c : CoreDir) :
    (stampDir line n c).line = line := rfl

/-- The function `contents` reads none of the bookkeeping fields, so the stamped line
and line number are irrelevant to it. -/
theorem contents_stamp (l l' : String) (n m : Nat) (c : CoreDir) (fs : FileSys) :
    contents (stampDir l n c) fs = contents (stampDir l' m c) fs := rfl

theorem parse_directive_of_core_none {l : String} {fs : FileSys}
    (h : parse_core l fs = .ok none) (n : Nat) :
    parse_directive l n fs = .ok none := by
  simp [parse_directive, h]

theorem parse_directive_of_core_some {l : String} {fs : FileSys} {c : CoreDir}
    (h : parse_core l fs = .ok (some c)) (n : Nat) :
    parse_directive l n fs = .ok (some (stampDir l n c)) := by
  simp [parse_directive, h]

theorem parse_directive_of_core_inline {l : String} {fs : FileSys} {m : String}
    (h : parse_core l fs = .error (.inlineMsg m)) (n : Nat) :
    parse_directive l n fs = .error (.inlineError m l n) := by
  simp [parse_directive, h]

theorem parse_directive_of_core_other {l : String} {fs : FileSys} {m : String}
    (h : parse_core l fs = .error (.otherMsg m)) (n : Nat) :
    parse_directive l n fs = .error (.otherErr m) := by
  simp [parse_directive, h]

/-! ### Single-step lemmas for the scan loop -/

theorem rgAux_nil_none (fs : FileSys) (clean : Bool) (n : Nat) :
    rgAux fs clean [] n none = .ok [] := rfl

theorem rgAux_nil_some (fs : FileSys) (clean : Bool) (n : Nat) (d : InlineDirective) :
    rgAux fs clean [] n (some d) =
      .error (.inlineError "Directive not closed at end of file" d.line d.lineno) := rfl

theorem rgAux_plain_idle {fs : FileSys} {l : String}
    (h : parse_core l fs = .ok none) (clean : Bool) (rest : List String) (n : Nat) :
    rgAux fs clean (l :: rest) n none =
      (rgAux fs clean rest (n + 1) none).map (fun tl => l :: tl) := by
  simp [rgAux, parse_directive_of_core_none h]

theorem rgAux_plain_open {fs : FileSys} {l : String}
    (h : parse_core l fs = .ok none) (clean : Bool) (rest : List String) (n : Nat)
    (d : InlineDirective) :
    rgAux fs clean (l :: rest) n (some d) = rgAux fs clean rest (n + 1) (some d) := by
  simp only [rgAux, parse_directive_of_core_none h]
  cases rgAux fs clean rest (n + 1) (some d) <;> simp [Except.map]

theorem rgAux_close_idle {fs : FileSys} {l : String} {c : CoreDir}
    (h : parse_core l fs = .ok (some c)) (hc : c.type = .CLOSING)
    (clean : Bool) (rest : List String) (n : Nat) :
    rgAux fs clean (l :: rest) n none =
      (rgAux fs clean rest (n + 1) none).map (fun tl => l :: l :: tl) := by
  simp [rgAux, parse_directive_of_core_some h, stampDir_type, hc]

theorem rgAux_close_open {fs : FileSys} {l : String} {c : CoreDir}
    (h : parse_core l fs = .ok (some c)) (hc : c.type = .CLOSING)
    (clean : Bool) (rest : List String) (n : Nat) (d : InlineDirective) :
    rgAux fs clean (l :: rest) n (some d) =
      (rgAux fs clean rest (n + 1) none).map (fun tl => l :: tl) := by
  simp [rgAux, parse_directive_of_core_some h, stampDir_type, hc]

theorem rgAux_open_open {fs : FileSys} {l : String} {c : CoreDir}
    (h : parse_core l fs = .ok (some c)) (hc : c.type = .OPENING)
    (clean : Bool) (rest : List String) (n : Nat) (d : InlineDirective) :
    rgAux fs clean (l :: rest) n (some d) =
      .error (.inlineError
        ("New directive found while previous is still open at line " ++ toString d.lineno)
        l n) := by
  simp [rgAux, parse_directive_of_core_some h, stampDir_type, hc]

theorem rgAux_open_idle_clean {fs : FileSys} {l : String} {c : CoreDir}
    (h : parse_core l fs = .ok (some c)) (hc : c.type = .OPENING)
    (rest : List String) (n : Nat) :
    rgAux fs true (l :: rest) n none =
      (rgAux fs true rest (n + 1) (some (stampDir l n c))).map (fun tl => l :: tl) := by
  simp [rgAux, parse_directive_of_core_some h, stampDir_type, hc]

theorem rgAux_open_idle_transform {fs : FileSys} {l : String} {c : CoreDir}
    {body : List String}
    (h : parse_core l fs = .ok (some c)) (hc : c.type = .OPENING)
    (hb : contents (stampDir l 1 c) fs = .ok body)
    (rest : List String) (n : Nat) :
    rgAux fs false (l :: rest) n none =
      (rgAux fs false rest (n + 1) (some (stampDir l n c))).map
        (fun tl => l :: (body ++ tl)) := by
  have hb' : contents (stampDir l n c) fs = .ok body := by
    rw [contents_stamp l l n 1]; exact hb
  simp [rgAux, parse_directive_of_core_some h, stampDir_type, hc, hb']

theorem rgAux_open_idle_transform_err {fs : FileSys} {l : String} {c : CoreDir}
    {e : PyErr}
    (h : parse_core l fs = .ok (some c)) (hc : c.type = .OPENING)
    (hb : contents (stampDir l 1 c) fs = .error e)
    (rest : List String) (n : Nat) :
    rgAux fs false (l :: rest) n none = .error e := by
  have hb' : contents (stampDir l n c) fs = .error e := by
    rw [contents_stamp l l n 1]; exact hb
  simp [rgAux, parse_directive_of_core_some h, stampDir_type, hc, hb']

theorem rgAux_parse_inline_err {fs : FileSys} {l : String} {m : String}
    (h : parse_core l fs = .error (.inlineMsg m))
    (clean : Bool) (rest : List String) (n : Nat) (cur : Option InlineDirective) :
    rgAux fs clean (l :: rest) n cur = .error (.inlineError m l n) := by
  simp [rgAux, parse_directive_of_core_inline h]

theorem rgAux_parse_other_err {fs : FileSys} {l : String} {m : String}
    (h : parse_core l fs = .error (.otherMsg m))
    (clean : Bool) (rest : List String) (n : Nat) (cur : Option InlineDirective) :
    rgAux fs clean (l :: rest) n cur = .error (.otherErr m) := by
  simp [rgAux, parse_directive_of_core_other h]

/-! ### Multi-line lemmas for the scan loop -/

/-- While idle, a run of non-directive lines is passed through
unchanged. -/
theorem rgAux_passthrough {fs : FileSys} {pre : List String}
    (h : ∀ x ∈ pre, parse_core x fs = .ok none)
    (clean : Bool) (rest : List String) (n : Nat) :
    rgAux fs clean (pre ++ rest) n none =
      (rgAux fs clean rest (n + pre.length) none).map (fun tl => pre ++ tl) := by
  induction pre generalizing n with
  | nil =>
    simp only [List.nil_append, List.length_nil, Nat.add_zero]
    cases rgAux fs clean rest n none <;> simp [Except.map]
  | cons x xs ih =>
    have hx : parse_core x fs = .ok none := h x (by simp)
    have hxs : ∀ y ∈ xs, parse_core y fs = .ok none := fun y hy => h y (by simp [hy])
    rw [List.cons_append, rgAux_plain_idle hx, ih hxs]
    simp only [List.length_cons]
    have harith : n + 1 + xs.length = n + (xs.length + 1) := by omega
    rw [harith]
    cases hres : rgAux fs clean rest (n + (xs.length + 1)) none <;>
      simp [Except.map, hres]

/-- While a directive is open, a run of non-directive lines is
discarded. -/
theorem rgAux_discard {fs : FileSys} {mid : List String}
    (h : ∀ x ∈ mid, parse_core x fs = .ok none)
    (clean : Bool) (rest : List String) (n : Nat) (d : InlineDirective) :
    rgAux fs clean (mid ++ rest) n (some d) =
      rgAux fs clean rest (n + mid.length) (some d) := by
  induction mid generalizing n with
  | nil => simp
  | cons x xs ih =>
    have hx : parse_core x fs = .ok none := h x (by simp)
    have hxs : ∀ y ∈ xs, parse_core y fs = .ok none := fun y hy => h y (by simp [hy])
    rw [List.cons_append, rgAux_plain_open hx, ih hxs]
    simp only [List.length_cons]
    have harith : n + 1 + xs.length = n + (xs.length + 1) := by omega
    rw [harith]

/-! ### Lemmas about well-paired runs -/

/-- On a well-paired input, the clean pass succeeds and yields the clean
output. -/
theorem pairRun_clean {strict : Bool} {fs : FileSys} {I C T : List String}
    (h : PairRun strict fs I C T) (n : Nat) :
    rgAux fs true I n none = .ok C := by
  induction h generalizing n with
  | nil => rfl
  | plain hl _ ih =>
    rw [rgAux_plain_idle hl, ih (n + 1)]
    rfl
  | block hl hlty hb _ hmid hcl hclty _ ih =>
    rw [rgAux_open_idle_clean hl hlty, rgAux_discard hmid,
      rgAux_close_open hcl hclty, ih]
    rfl

/-- On a well-paired input, the transforming pass succeeds and yields
the transformed output. -/
theorem pairRun_transform {strict : Bool} {fs : FileSys} {I C T : List String}
    (h : PairRun strict fs I C T) (n : Nat) :
    rgAux fs false I n none = .ok T := by
  induction h generalizing n with
  | nil => rfl
  | plain hl _ ih =>
    rw [rgAux_plain_idle hl, ih (n + 1)]
    rfl
  | block hl hlty hb _ hmid hcl hclty _ ih =>
    rw [rgAux_open_idle_transform hl hlty hb, rgAux_discard hmid,
      rgAux_close_open hcl hclty, ih]
    rfl

/-- Transforming the clean output of a well-paired input yields the same
result as transforming the input directly. -/
theorem pairRun_transform_of_clean {strict : Bool} {fs : FileSys} {I C T : List String}
    (h : PairRun strict fs I C T) (n : Nat) :
    rgAux fs false C n none = .ok T := by
  induction h generalizing n with
  | nil => rfl
  | plain hl _ ih =>
    rw [rgAux_plain_idle hl, ih (n + 1)]
    rfl
  | block hl hlty hb _ hmid hcl hclty _ ih =>
    rw [rgAux_open_idle_transform hl hlty hb, rgAux_close_open hcl hclty, ih]
    rfl

/-- Transforming the transformed output of a strictly well-paired input
reproduces that output: the transforming pass is idempotent there. -/
theorem pairRun_transform_idem {fs : FileSys} {I C T : List String}
    (h : PairRun true fs I C T) (n : Nat) :
    rgAux fs false T n none = .ok T := by
  induction h generalizing n with
  | nil => rfl
  | plain hl _ ih =>
    rw [rgAux_plain_idle hl, ih (n + 1)]
    rfl
  | block hl hlty hb hstrict hmid hcl hclty _ ih =>
    rw [rgAux_open_idle_transform hl hlty hb, rgAux_discard (hstrict rfl),
      rgAux_close_open hcl hclty, ih]
    rfl

/-- Reaching the end of the input while a directive is open raises the
unterminated-directive error, citing the open directive's line and line
number. -/
theorem rgAux_discard_to_end {fs : FileSys} {mid : List String}
    (h : ∀ x ∈ mid, parse_core x fs = .ok none)
    (clean : Bool) (n : Nat) (d : InlineDirective) :
    rgAux fs clean mid n (some d) =
      .error (.inlineError "Directive not closed at end of file" d.line d.lineno) := by
  have hd := rgAux_discard h clean [] n d
  rw [List.append_nil] at hd
  rw [hd, rgAux_nil_some]

/-- A successful `mkCore` construction of an OPENING directive yields a
directive of OPENING type. -/
theorem mkCore_opening_type {source : Option String} {vb : Bool}
    {lg : Option String} {st en : Option String} {fs : FileSys} {c : CoreDir}
    (h : mkCore .OPENING source vb lg st en fs = .ok c) :
    c.type = .OPENING := by
  unfold mkCore at h
  cases hs : validate_source source fs <;> rw [hs] at h
  · exact absurd h (by simp)
  · cases h1 : coerceBound st "start" <;> rw [h1] at h
    · exact absurd h (by simp)
    · cases h2 : coerceBound en "end" <;> rw [h2] at h
      · exact absurd h (by simp)
      · simp only [Except.ok.injEq] at h
        rw [← h]

/-! ### C1: a stray CLOSING directive while idle -/

/--
C1, as stated, is false on the code: a CLOSING line met while no
directive is open is yielded twice — once by the idle pass-through and
once by the closing branch — not exactly once.  Concretely, a
single-line input consisting of one stray closing marker produces a
two-line output.
-/
theorem c1_stray_closing_cex :
    result_generator [strayLine] false fsNone = .ok [strayLine, strayLine] ∧
    result_generator [strayLine] true fsNone = .ok [strayLine, strayLine] ∧
    ([strayLine, strayLine] : List String) ≠ [strayLine] :=
  ⟨by decide, by decide, by decide⟩

/--
C1 (amended): while the transformer is idle, a line that parses as a
CLOSING directive raises no error and is passed through as ordinary
content, but it appears TWICE in the output — once from the idle
pass-through and once from the closing branch — in both transform and
clean modes, and the scan continues in the idle state.
-/
theorem c1_stray_closing_passthrough {fs : FileSys} {l : String} {c : CoreDir}
    (h : parse_core l fs = .ok (some c)) (hc : c.type = .CLOSING)
    (pre : List String) (hpre : ∀ x ∈ pre, parse_core x fs = .ok none)
    (rest : List String) (clean : Bool) :
    result_generator (pre ++ l :: rest) clean fs =
      (rgAux fs clean rest (pre.length + 2) none).map
        (fun tl => pre ++ l :: l :: tl) := by
  unfold result_generator
  rw [rgAux_passthrough hpre, rgAux_close_idle h hc]
  have harith : 1 + pre.length + 1 = pre.length + 2 := by omega
  rw [harith]
  cases hres : rgAux fs clean rest (pre.length + 2) none <;> simp [Except.map, hres]

/-- Witness for `c1_stray_closing_passthrough` at a concrete input. -/
theorem c1_stray_closing_passthrough_witness :
    result_generator (["head\n"] ++ strayLine :: ["tail\n"]) false fsNone =
      (rgAux fsNone false ["tail\n"] (["head\n"].length + 2) none).map
        (fun tl => ["head\n"] ++ strayLine :: strayLine :: tl) :=
  @c1_stray_closing_passthrough fsNone strayLine closeCore (by decide) (by decide)
    ["head\n"] (by decide) ["tail\n"] false

/-! ### C2: idempotence of the transforming pass -/

/--
C2, as stated, is false on the code: there are inputs on which the
transforming pass succeeds whose output is not a fixed point.  A single
stray closing line is duplicated by the first pass and quadrupled by the
second.
-/
theorem c2_idempotence_cex :
    result_generator [strayLine] false fsNone = .ok [strayLine, strayLine] ∧
    result_generator [strayLine, strayLine] false fsNone =
      .ok [strayLine, strayLine, strayLine, strayLine] ∧
    ([strayLine, strayLine, strayLine, strayLine] : List String) ≠
      [strayLine, strayLine] :=
  ⟨by decide, by decide, by decide⟩

/--
C2 (amended): on every input whose transforming scan succeeds without
ever meeting a CLOSING directive while idle, and whose materialized
content lines are themselves non-directive lines, the transforming pass
succeeds and running it again on its own output yields byte-identical
output.
-/
theorem c2_transform_idempotent {fs : FileSys} {I C T : List String}
    (h : PairRun true fs I C T) :
    result_generator I false fs = .ok T ∧ result_generator T false fs = .ok T :=
  ⟨pairRun_transform h 1, pairRun_transform_idem h 1⟩

/-- Witness for `c2_transform_idempotent` at a concrete input. -/
theorem c2_transform_idempotent_witness :
    result_generator ["head\n", openLineF, "old\n", strayLine, "tail\n"] false fsDemo =
      .ok ["head\n", openLineF, "a\n", "b\n", strayLine, "tail\n"] ∧
    result_generator ["head\n", openLineF, "a\n", "b\n", strayLine, "tail\n"] false fsDemo =
      .ok ["head\n", openLineF, "a\n", "b\n", strayLine, "tail\n"] := by
  have hrun : PairRun true fsDemo
      ("head\n" :: (openLineF :: (["old\n"] ++ strayLine :: ["tail\n"])))
      ("head\n" :: openLineF :: strayLine :: ["tail\n"])
      ("head\n" :: (openLineF :: (["a\n", "b\n"] ++ strayLine :: ["tail\n"]))) :=
    PairRun.plain (by decide)
      (@PairRun.block true fsDemo openLineF strayLine openCoreF closeCore
        ["a\n", "b\n"] ["old\n"] ["tail\n"] ["tail\n"] ["tail\n"]
        (by decide) (by decide) (by decide) (fun _ => by decide) (by decide)
        (by decide) (by decide)
        (PairRun.plain (by decide) PairRun.nil))
  exact c2_transform_idempotent hrun

/-! ### C9: clean mode composed with transform mode -/

/--
C9, as stated, is false on the code: with a stray closing line, cleaning
duplicates it and transforming the cleaned result quadruples it, while
transforming the original only duplicates it.
-/
theorem c9_clean_transform_cex :
    result_generator [strayLine] true fsNone = .ok [strayLine, strayLine] ∧
    result_generator [strayLine, strayLine] false fsNone =
      .ok [strayLine, strayLine, strayLine, strayLine] ∧
    result_generator [strayLine] false fsNone = .ok [strayLine, strayLine] ∧
    ([strayLine, strayLine, strayLine, strayLine] : List String) ≠
      [strayLine, strayLine] :=
  ⟨by decide, by decide, by decide, by decide⟩

/--
C9 (amended): on every input whose scan succeeds without ever meeting a
CLOSING directive while idle, running clean mode and then transform mode
on the cleaned result yields the same output as running transform mode
directly on the original input, with the same file system.
-/
theorem c9_clean_then_transform {strict : Bool} {fs : FileSys} {I C T : List String}
    (h : PairRun strict fs I C T) :
    result_generator I true fs = .ok C ∧
    result_generator I false fs = .ok T ∧
    result_generator C false fs = .ok T :=
  ⟨pairRun_clean h 1, pairRun_transform h 1, pairRun_transform_of_clean h 1⟩

/-- Witness for `c9_clean_then_transform` at a concrete input. -/
theorem c9_clean_then_transform_witness :
    result_generator ["head\n", openLineF, "old\n", strayLine, "tail\n"] true fsDemo =
      .ok ["head\n", openLineF, strayLine, "tail\n"] ∧
    result_generator ["head\n", openLineF, "old\n", strayLine, "tail\n"] false fsDemo =
      .ok ["head\n", openLineF, "a\n", "b\n", strayLine, "tail\n"] ∧
    result_generator ["head\n", openLineF, strayLine, "tail\n"] false fsDemo =
      .ok ["head\n", openLineF, "a\n", "b\n", strayLine, "tail\n"] := by
  have hrun : PairRun false fsDemo
      ("head\n" :: (openLineF :: (["old\n"] ++ strayLine :: ["tail\n"])))
      ("head\n" :: openLineF :: strayLine :: ["tail\n"])
      ("head\n" :: (openLineF :: (["a\n", "b\n"] ++ strayLine :: ["tail\n"]))) :=
    PairRun.plain (by decide)
      (@PairRun.block false fsDemo openLineF strayLine openCoreF closeCore
        ["a\n", "b\n"] ["old\n"] ["tail\n"] ["tail\n"] ["tail\n"]
        (by decide) (by decide) (by decide) (fun hb => Bool.noConfusion hb)
        (by decide) (by decide) (by decide)
        (PairRun.plain (by decide) PairRun.nil))
  exact c9_clean_then_transform hrun

/-! ### C4: end of input while a directive is open -/

/--
C4: if the input ends while a directive is still open — an opening line
preceded and followed only by non-directive lines — the scan raises the
directive error "Directive not closed at end of file", carrying the
opening directive's original line text and its 1-based line number, in
both modes.
-/
theorem c4_unclosed_directive {fs : FileSys} {l : String} {c : CoreDir}
    (pre post : List String)
    (hpre : ∀ x ∈ pre, parse_core x fs = .ok none)
    (h : parse_core l fs = .ok (some c)) (hc : c.type = .OPENING)
    (hpost : ∀ x ∈ post, parse_core x fs = .ok none)
    (clean : Bool)
    (hbody : clean = false → ∃ body, contents (stampDir l 1 c) fs = .ok body) :
    result_generator (pre ++ l :: post) clean fs =
      .error (.inlineError "Directive not closed at end of file" l (pre.length + 1)) := by
  unfold result_generator
  rw [rgAux_passthrough hpre]
  have hlineno : 1 + pre.length = pre.length + 1 := by omega
  cases clean
  · obtain ⟨body, hb⟩ := hbody rfl
    rw [rgAux_open_idle_transform h hc hb, rgAux_discard_to_end hpost,
      stampDir_line, stampDir_lineno, hlineno]
    simp [Except.map]
  · rw [rgAux_open_idle_clean h hc, rgAux_discard_to_end hpost,
      stampDir_line, stampDir_lineno, hlineno]
    simp [Except.map]

/-- Witness for `c4_unclosed_directive`: an opening directive at line 2
that is never closed raises the error citing line 2. -/
theorem c4_unclosed_directive_witness :
    result_generator (["head\n"] ++ openLineF :: []) false fsDemo =
      .error (.inlineError "Directive not closed at end of file" openLineF
        (["head\n"].length + 1)) :=
  @c4_unclosed_directive fsDemo openLineF openCoreF ["head\n"] [] (by decide)
    (by decide) (by decide) (by decide) false
    (fun _ => ⟨["a\n", "b\n"], by decide⟩)

/-! ### C5: directive nesting is forbidden -/

/--
C5: a line parsing as an OPENING directive while a previous directive is
still open raises the fatal directive error whose message cites the line
number of the already-open directive, in both modes.
-/
theorem c5_nesting_error {fs : FileSys} {l1 l2 : String} {c1 c2 : CoreDir}
    (pre mid rest : List String)
    (hpre : ∀ x ∈ pre, parse_core x fs = .ok none)
    (h1 : parse_core l1 fs = .ok (some c1)) (hc1 : c1.type = .OPENING)
    (hmid : ∀ x ∈ mid, parse_core x fs = .ok none)
    (h2 : parse_core l2 fs = .ok (some c2)) (hc2 : c2.type = .OPENING)
    (clean : Bool)
    (hbody : clean = false → ∃ body, contents (stampDir l1 1 c1) fs = .ok body) :
    result_generator (pre ++ l1 :: (mid ++ l2 :: rest)) clean fs =
      .error (.inlineError
        ("New directive found while previous is still open at line " ++
          toString (pre.length + 1))
        l2 (pre.length + mid.length + 2)) := by
  unfold result_generator
  rw [rgAux_passthrough hpre]
  have e1 : 1 + pre.length = pre.length + 1 := by omega
  have e2 : pre.length + 1 + 1 + mid.length = pre.length + mid.length + 2 := by
    omega
  cases clean
  · obtain ⟨body, hb⟩ := hbody rfl
    rw [rgAux_open_idle_transform h1 hc1 hb, rgAux_discard hmid,
      rgAux_open_open h2 hc2, stampDir_lineno, e1, e2]
    simp [Except.map]
  · rw [rgAux_open_idle_clean h1 hc1, rgAux_discard hmid,
      rgAux_open_open h2 hc2, stampDir_lineno, e1, e2]
    simp [Except.map]

/-- Witness for `c5_nesting_error`: two consecutive opening directives. -/
theorem c5_nesting_error_witness :
    result_generator (([] : List String) ++ openLineF :: (([] : List String) ++ openLineF :: [])) false fsDemo =
      .error (.inlineError
        ("New directive found while previous is still open at line " ++
          toString (([] : List String).length + 1))
        openLineF (([] : List String).length + ([] : List String).length + 2)) :=
  @c5_nesting_error fsDemo openLineF openLineF openCoreF openCoreF [] [] []
    (by decide) (by decide) (by decide) (by decide) (by decide) (by decide) false
    (fun _ => ⟨["a\n", "b\n"], by decide⟩)

/-! ### C6: source validation is eager -/

/--
C6: the existence/readability of the `src` path is checked at directive
construction: constructing an OPENING directive whose path is absent or
unreadable yields a directive error, whatever the other attributes are;
consequently the check pass (which discards all output) fails on a line
whose parse raises such an error, citing that line and its line number.
-/
theorem c6_eager_source_validation {fs : FileSys} {p : String} :
    (fs p = none → ∀ vb lg st en,
      mkCore .OPENING (some p) vb lg st en fs =
        .error (.inlineMsg ("File " ++ p ++ " not found"))) ∧
    (fs p = some .unreadable → ∀ vb lg st en,
      mkCore .OPENING (some p) vb lg st en fs =
        .error (.inlineMsg ("Permission denied: " ++ p))) ∧
    (∀ (pre : List String) (l : String) (rest : List String) (clean : Bool)
        (m : String),
      (∀ x ∈ pre, parse_core x fs = .ok none) →
      parse_core l fs = .error (.inlineMsg m) →
      check (pre ++ l :: rest) clean fs =
        .error (.inlineError m l (pre.length + 1))) := by
  refine ⟨?_, ?_, ?_⟩
  · intro hp vb lg st en
    simp [mkCore, validate_source, hp]
  · intro hp vb lg st en
    simp [mkCore, validate_source, hp]
  · intro pre l rest clean m hpre hl
    unfold check result_generator
    rw [rgAux_passthrough hpre, rgAux_parse_inline_err hl]
    have e1 : 1 + pre.length = pre.length + 1 := by omega
    rw [e1]
    simp [Except.map]

/-- Witness for `c6_eager_source_validation` at a concrete missing
file. -/
theorem c6_eager_source_validation_witness :
    mkCore .OPENING (some "g") true none none none fsNone =
      .error (.inlineMsg ("File " ++ "g" ++ " not found")) ∧
    check (([] : List String) ++ "<!-- <inline src=\"g\"> -->\n" :: []) false fsNone =
      .error (.inlineError "File g not found" "<!-- <inline src=\"g\"> -->\n"
        (([] : List String).length + 1)) :=
  ⟨(@c6_eager_source_validation fsNone "g").1 (by decide)
      true none none none,
   (@c6_eager_source_validation fsNone "g").2.2
      [] "<!-- <inline src=\"g\"> -->\n" [] false "File g not found"
      (by decide) (by decide)⟩

/-! ### C7: malformed directive tag markup -/

/--
C7, as stated, is false on the code: a comment text that starts like an
opening directive but is not well-formed as a single tag does NOT raise
the directive-error kind.  Concretely, an unterminated tag leaves the
parser's attributes unset and the subsequent `dict(None)` raises a
`TypeError`, which carries neither the line text nor the line number.
-/
theorem c7_malformed_tag_cex :
    parse_directive "<!-- <inline src=\"f\" -->\n" 3 fsDemo =
      .error (.otherErr dictNoneMsg) ∧
    (∀ m l k, PyErr.otherErr dictNoneMsg ≠ PyErr.inlineError m l k) :=
  ⟨by decide, fun _ _ _ h => PyErr.noConfusion h⟩

/--
C7 (amended): a comment text that starts like an opening directive but
in which no complete tag fires (unterminated tag) raises an untagged
`TypeError`; one in which a second top-level tag fires raises an
untagged `AssertionError`.  Neither is the directive-error kind, so the
offending line's text and number are not attached.
-/
theorem c7_malformed_tag_untagged {line t : String} {fs : FileSys}
    (he : extract_line_comment line = some t) (ho : codeLooksOpening t = true)
    (n : Nat) :
    (feedModel t = .incomplete →
      parse_directive line n fs = .error (.otherErr dictNoneMsg)) ∧
    (feedModel t = .assertFail →
      parse_directive line n fs = .error (.otherErr assertMsg)) := by
  constructor <;> intro hf <;>
    simp [parse_directive, parse_core, he, ho, hf]

/-- Witness for `c7_malformed_tag_untagged`: a comment with two
top-level tags fails the parser's assertion. -/
theorem c7_malformed_tag_untagged_witness :
    parse_directive "<!-- <inline src=\"f\"> <b> -->\n" 2 fsNone =
      .error (.otherErr assertMsg) :=
  (@c7_malformed_tag_untagged "<!-- <inline src=\"f\"> <b> -->\n"
    "<inline src=\"f\"> <b>" fsNone (by decide) (by decide) 2).2 (by decide)

/-! ### C10: non-positive start bounds are not rejected at construction -/

/--
C10: a syntactically valid but non-positive `start` attribute survives
directive construction (no directive error); materializing the contents
then fails with the untagged `islice` `ValueError`, so in transform mode
the failure surfaces only at content-generation time.
-/
theorem c10_nonpositive_start {fs : FileSys} {p s : String} {v : Int}
    {lines : List String}
    (hfs : fs p = some (.readable lines))
    (hpy : pyInt s = some v) (hv : v ≤ 0) (vb : Bool) (lg : Option String) :
    mkCore .OPENING (some p) vb lg (some s) none fs =
      .ok ⟨.OPENING, some p, vb, lg, some v, none⟩ ∧
    (∀ line lineno,
      contents (stampDir line lineno ⟨.OPENING, some p, vb, lg, some v, none⟩) fs =
        .error (.otherErr isliceMsg)) ∧
    (∀ m l k, PyErr.otherErr isliceMsg ≠ PyErr.inlineError m l k) ∧
    (∀ (line : String) (I : List String) (n : Nat),
      parse_core line fs = .ok (some ⟨.OPENING, some p, vb, lg, some v, none⟩) →
      rgAux fs false (line :: I) n none = .error (.otherErr isliceMsg)) := by
  have hneg : v - 1 < 0 := by omega
  refine ⟨?_, ?_, fun _ _ _ h => PyErr.noConfusion h, ?_⟩
  · simp [mkCore, validate_source, hfs, coerceBound, hpy]
  · intro line lineno
    simp [contents, stampDir, hfs, hneg]
  · intro line I n hl
    have hb : contents (stampDir line 1 ⟨.OPENING, some p, vb, lg, some v, none⟩) fs =
        .error (.otherErr isliceMsg) := by
      simp [contents, stampDir, hfs, hneg]
    exact rgAux_open_idle_transform_err hl rfl hb I n

/-- Witness for `c10_nonpositive_start` with `start="0"`. -/
theorem c10_nonpositive_start_witness :
    mkCore .OPENING (some "f") false none (some "0") none fsDemo =
      .ok ⟨.OPENING, some "f", false, none, some 0, none⟩ ∧
    contents (stampDir "<!-- <inline src=\"f\" start=\"0\"> -->\n" 1
        ⟨.OPENING, some "f", false, none, some 0, none⟩) fsDemo =
      .error (.otherErr isliceMsg) ∧
    rgAux fsDemo false ["<!-- <inline src=\"f\" start=\"0\"> -->\n"] 1 none =
      .error (.otherErr isliceMsg) := by
  have h := @c10_nonpositive_start fsDemo "f" "0" 0 ["a\n", "b\n"]
    (by decide) (by decide) (by decide) false none
  exact ⟨h.1, h.2.1 "<!-- <inline src=\"f\" start=\"0\"> -->\n" 1,
    h.2.2.2 "<!-- <inline src=\"f\" start=\"0\"> -->\n" [] 1 (by decide)⟩


/-- Constructing an OPENING directive and wrapping the result in `some`
either errors or yields an OPENING directive. -/
theorem mkCoreMap_opening (src : Option String) (vb : Bool) (lg : Option String)
    (st en : Option String) (fs : FileSys) :
    (∃ m, (mkCore .OPENING src vb lg st en fs).map some = .error m) ∨
    (∃ c : CoreDir, (mkCore .OPENING src vb lg st en fs).map some = .ok (some c) ∧
      c.type = .OPENING) := by
  cases hmk : mkCore .OPENING src vb lg st en fs with
  | error e => exact Or.inl ⟨e, rfl⟩
  | ok c => exact Or.inr ⟨c, rfl, mkCore_opening_type hmk⟩

/-! ### C3: bounds correctness of content materialization -/

/--
C3: for a readable source file, a directive with positive bounds
materializes exactly lines `S .. min E N` (1-based inclusive) of the
file between its fence lines, empty when `S > N`; an absent `start`
behaves as `S = 1` and an absent `end` as `E = N`.
-/
theorem c3_contents_bounds {fs : FileSys} {p : String} {lines : List String}
    (d : InlineDirective) (S E : Nat)
    (hsrc : d.source = some p) (hfs : fs p = some (.readable lines))
    (hstart : (d.start = none ∧ S = 1) ∨ (d.start = some (S : Int) ∧ 1 ≤ S))
    (hstop : (d.stop = none ∧ E = lines.length) ∨ (d.stop = some (E : Int) ∧ 1 ≤ E)) :
    contents d fs = .ok (fencePre d ++ ((lines.take E).drop (S - 1)) ++ fencePost d) ∧
    ((lines.take E).drop (S - 1)).length = min E lines.length + 1 - S ∧
    (∀ i : Nat, ((lines.take E).drop (S - 1))[i]? =
      if S + i ≤ min E lines.length then lines[S - 1 + i]? else none) ∧
    (lines.length < S → (lines.take E).drop (S - 1) = []) := by
  have hS : 1 ≤ S := by
    rcases hstart with ⟨_, rfl⟩ | ⟨_, h⟩
    · exact Nat.le_refl 1
    · exact h
  have hmain : contents d fs =
      .ok (fencePre d ++ ((lines.take E).drop (S - 1)) ++ fencePost d) := by
    rcases hstart with ⟨ha, rfl⟩ | ⟨ha, hS1⟩ <;>
      rcases hstop with ⟨hb, rfl⟩ | ⟨hb, hE1⟩
    · simp [contents, ha, hb, hsrc, hfs, List.take_length]
    · have hE0 : ¬ ((E : Int) < 0) := by omega
      simp [contents, ha, hb, hsrc, hfs, hE0]
    · have hS0 : ¬ ((S : Int) - 1 < 0) := by omega
      have hSnat : ((S : Int) - 1).toNat = S - 1 := by omega
      simp [contents, ha, hb, hsrc, hfs, hS0, hSnat, List.take_length]
    · have hS0 : ¬ ((S : Int) - 1 < 0) := by omega
      have hSnat : ((S : Int) - 1).toNat = S - 1 := by omega
      have hE0 : ¬ ((E : Int) < 0) := by omega
      simp [contents, ha, hb, hsrc, hfs, hS0, hSnat, hE0]
  have hlen : ((lines.take E).drop (S - 1)).length = min E lines.length + 1 - S := by
    rw [List.length_drop, List.length_take]
    omega
  refine ⟨hmain, hlen, ?_, ?_⟩
  · intro i
    rw [List.getElem?_drop, List.getElem?_take]
    by_cases hcase : S - 1 + i < E
    · rw [if_pos hcase]
      by_cases hN : S - 1 + i < lines.length
      · rw [if_pos (by omega)]
      · rw [List.getElem?_eq_none (by omega), if_neg (by omega)]
    · rw [if_neg hcase, if_neg (by omega)]
  · intro hlt
    apply List.eq_nil_of_length_eq_zero
    rw [hlen]
    omega

/-- Witness for `c3_contents_bounds`: `start=4 end=6` on a ten-line
file yields exactly lines 4, 5, 6. -/
theorem c3_contents_bounds_witness :
    (⟨.OPENING, 2, "x", some "g", true, some "py", some 4, some 6⟩ :
        InlineDirective).source = some "g" ∧
    contents (⟨.OPENING, 2, "x", some "g", true, some "py", some 4, some 6⟩ :
        InlineDirective) fsTen =
      .ok (["```py\n"] ++ ["4\n", "5\n", "6\n"] ++ ["```\n"]) := by
  have h := @c3_contents_bounds fsTen "g"
    ["1\n", "2\n", "3\n", "4\n", "5\n", "6\n", "7\n", "8\n", "9\n", "10\n"]
    ⟨.OPENING, 2, "x", some "g", true, some "py", some 4, some 6⟩ 4 6
    rfl (by decide) (Or.inr ⟨rfl, by decide⟩) (Or.inr ⟨rfl, by decide⟩)
  refine ⟨rfl, ?_⟩
  rw [h.1]
  decide

/-! ### C8: which comment texts are directives -/

/--
C8, as stated, is false on the code: the spec's opening pattern
`^<(inline|python)\s` accepts any whitespace after the tag name, but the
code's pattern ends in a literal space.  A tab-separated opening tag
satisfies the spec's pattern yet is treated as ordinary text.
-/
theorem c8_opening_pattern_cex :
    specLooksOpening "<inline\tsrc=\"x\">" = true ∧
    extract_line_comment "<!-- <inline\tsrc=\"x\"> -->\n" =
      some "<inline\tsrc=\"x\">" ∧
    codeLooksOpening "<inline\tsrc=\"x\">" = false ∧
    parse_directive "<!-- <inline\tsrc=\"x\"> -->\n" 1 fsNone = .ok none :=
  ⟨by decide, by decide, by decide, by decide⟩

/--
C8 (amended): a comment text is treated as an OPENING directive tag
exactly when it starts with `<inline ` or `<python ` — the tag name
followed by a literal space, not arbitrary whitespace; the texts exactly
equal to `</inline>` or `</python>` are CLOSING directives; any other
comment text, and any non-comment line, is ordinary text.
-/
theorem c8_directive_trigger {fs : FileSys} (line : String) (n : Nat) :
    (extract_line_comment line = none → parse_directive line n fs = .ok none) ∧
    (∀ t, extract_line_comment line = some t →
      ((codeLooksOpening t = true →
        (∃ e, parse_directive line n fs = .error e) ∨
        (∃ d : InlineDirective, parse_directive line n fs = .ok (some d) ∧
          d.type = .OPENING)) ∧
      (codeLooksOpening t = false → (t = "</inline>" ∨ t = "</python>") →
        parse_directive line n fs = .ok (some (stampDir line n closeCore))) ∧
      (codeLooksOpening t = false → t ≠ "</inline>" → t ≠ "</python>" →
        parse_directive line n fs = .ok none))) := by
  constructor
  · intro he
    simp [parse_directive, parse_core, he]
  · intro t he
    refine ⟨?_, ?_, ?_⟩
    · intro ho
      have hcore : (∃ m, parse_core line fs = .error m) ∨
          (∃ c : CoreDir, parse_core line fs = .ok (some c) ∧ c.type = .OPENING) := by
        unfold parse_core
        rw [he]
        simp only [ho, if_true]
        cases hf : feedModel t with
        | incomplete => exact Or.inl ⟨_, rfl⟩
        | assertFail => exact Or.inl ⟨_, rfl⟩
        | one tag attrs =>
          simp only []
          by_cases hsrcp : (attrLookup attrs "src").isNone
          · rw [if_pos hsrcp]
            exact Or.inl ⟨_, rfl⟩
          · rw [if_neg hsrcp]
            by_cases htag : tag = "python"
            · rw [if_pos htag]
              exact mkCoreMap_opening _ _ _ _ _ _
            · rw [if_neg htag]
              by_cases htag2 : tag = "inline"
              · rw [if_pos htag2]
                exact mkCoreMap_opening _ _ _ _ _ _
              · rw [if_neg htag2]
                exact Or.inl ⟨_, rfl⟩
      rcases hcore with ⟨m, hm⟩ | ⟨c, hc, hcty⟩
      · cases m with
        | inlineMsg mm => exact Or.inl ⟨_, parse_directive_of_core_inline hm n⟩
        | otherMsg mm => exact Or.inl ⟨_, parse_directive_of_core_other hm n⟩
      · exact Or.inr ⟨stampDir line n c, parse_directive_of_core_some hc n,
          by rw [stampDir_type]; exact hcty⟩
    · intro ho hcl
      have hpc : parse_core line fs = .ok (some closeCore) := by
        unfold parse_core
        rw [he]
        simp only [ho]
        rcases hcl with rfl | rfl <;> simp [mkCore, closeCore, Except.map]
      exact parse_directive_of_core_some hpc n
    · intro ho h1 h2
      have hpc : parse_core line fs = .ok none := by
        unfold parse_core
        rw [he]
        simp [ho, h1, h2]
      exact parse_directive_of_core_none hpc n

/-- Witness for `c8_directive_trigger`: the exact closing text yields a
CLOSING directive. -/
theorem c8_directive_trigger_witness :
    parse_directive strayLine 5 fsNone = .ok (some (stampDir strayLine 5 closeCore)) :=
  ((@c8_directive_trigger fsNone strayLine 5).2 "</inline>"
    (by decide)).2.1 (by decide) (Or.inl rfl)
